import Mathlib

/-!
Shallow embedding of the client-side session/token lifecycle of the
anime-recommendation front end: the in-memory/sessionStorage token store,
the axios response interceptor's refresh-and-replay state machine, the
auth-context operations (checkAuth, login, signup, logout, refreshToken),
the chat-history timestamp normalization, and the sync-request validation
schema.  Each definition is translated from the corresponding TypeScript
source; JavaScript truthiness on optional strings/numbers is modelled
explicitly.
-/

/-- JavaScript truthiness for an optional string value: `undefined`/`null`
(modelled as `none`) and the empty string are falsy. -/
def truthyS : Option String → Bool
  | none => false
  | some s => !(s == "")

/-- JavaScript `a || b` on optional string values. -/
def jsOrS (a b : Option String) : Option String :=
  if truthyS a then a else b

/-- JavaScript truthiness for an optional number (0 is falsy). -/
def truthyN : Option Int → Bool
  | none => false
  | some n => !(n == 0)

/-- Contiguous-substring search on character lists: `sub` occurs at some
position of `s`. -/
def listInfix (sub s : List Char) : Bool :=
  match s with
  | [] => sub.isEmpty
  | _ :: tail => sub.isPrefixOf s || listInfix sub tail

/-- JavaScript `String.prototype.includes`: `sub` occurs somewhere in `s`. -/
def includesSub (s sub : String) : Bool :=
  listInfix sub.toList s.toList

/-! ## Token store (src/lib/api/client.ts)

The module holds one in-memory slot `accessToken` and mirrors it into
`sessionStorage` under the key `accessToken`.  `TokenStore` models both
cells (the browser environment is assumed, i.e. `typeof window` is not
`undefined`). -/

structure TokenStore where
  memory : Option String
  session : Option String
deriving Repr, DecidableEq

/-- `setAccessToken(token)`: writes the in-memory slot unconditionally;
mirrors into sessionStorage only when the token is truthy, otherwise
removes the sessionStorage item. -/
def setAccessToken (token : Option String) (_s : TokenStore) : TokenStore :=
  { memory := token
    session := if truthyS token then token else none }

/-- `getAccessToken()`: returns the in-memory token when truthy; otherwise
falls back to sessionStorage (caching a truthy hit back into memory);
otherwise `null`.  Returns the value read and the store after the call. -/
def getAccessToken (s : TokenStore) : Option String × TokenStore :=
  if truthyS s.memory then (s.memory, s)
  else if truthyS s.session then (s.session, { s with memory := s.session })
  else (none, s)

/-! ## Users and response payloads (src/context/AuthContext.tsx) -/

/-- A raw user object as it may arrive from the backend: the identifier can
be under `_id` or `id`. -/
structure RawUser where
  _id : Option String := none
  id : Option String := none
  email : Option String := none
  username : Option String := none
  oauthProviders : Option (List String) := none
  createdAt : Option String := none
  updatedAt : Option String := none
deriving Repr, DecidableEq

/-- The canonical user shape held in UI state after normalization. -/
structure CanonUser where
  _id : Option String
  email : Option String
  username : Option String
  oauthProviders : Option (List String)
  createdAt : Option String
  updatedAt : Option String
deriving Repr, DecidableEq

/-- The normalization applied in every extraction branch of login/signup:
`_id: user._id || user.id` plus a field-by-field copy. -/
def normalizeUser (u : RawUser) : CanonUser :=
  { _id := jsOrS u._id u.id
    email := u.email
    username := u.username
    oauthProviders := u.oauthProviders
    createdAt := u.createdAt
    updatedAt := u.updatedAt }

/-- A token pair as delivered by the backend. -/
structure Tokens where
  accessToken : Option String := none
  refreshTokenStr : Option String := none
deriving Repr, DecidableEq

/-- JavaScript `a || b` on optional token objects (an object is truthy iff
present). -/
def jsOrT (a b : Option Tokens) : Option Tokens :=
  match a with
  | some t => some t
  | none => b

/-- The doubly-nested `data.data` payload. -/
structure InnerData where
  user : Option RawUser := none
  tokens : Option Tokens := none
deriving Repr, DecidableEq

/-- The `response.data` payload of a login/signup response.  It may carry a
nested `user`, flattened user fields, a doubly-nested `data`, `tokens`,
and an `error` field. -/
structure LoginData where
  user : Option RawUser := none
  _id : Option String := none
  id : Option String := none
  email : Option String := none
  username : Option String := none
  oauthProviders : Option (List String) := none
  createdAt : Option String := none
  updatedAt : Option String := none
  tokens : Option Tokens := none
  data : Option InnerData := none
  error : Option String := none
deriving Repr, DecidableEq

/-- The flattened user fields of a payload read as a raw user
(`data._id || data.id`, `data.email`, ...). -/
def toRawUser (d : LoginData) : RawUser :=
  { _id := d._id, id := d.id, email := d.email, username := d.username
    oauthProviders := d.oauthProviders, createdAt := d.createdAt
    updatedAt := d.updatedAt }

/-- The normalized API envelope returned by `apiClient`. -/
structure ApiEnvelope where
  success : Bool
  data : Option LoginData := none
  error : Option String := none
deriving Repr, DecidableEq

/-! ## Login / signup response-shape extraction (AuthContext.tsx) -/

/-- The result of locating a user/token pair in a success payload: the
canonical user, the `tokens` value placed in the returned envelope, and the
access token written to the token store (written only when
`tokens?.accessToken` is truthy). -/
structure ExtractResult where
  user : CanonUser
  tokens : Option Tokens
  storedToken : Option String
deriving Repr, DecidableEq

/-- The token written by `if (tokens?.accessToken) setAccessToken(...)`. -/
def storeIfToken (t : Option Tokens) : Option String :=
  match t with
  | some tk => if truthyS tk.accessToken then tk.accessToken else none
  | none => none

/-- Login's shape dispatch on `response.data`: Case 1 `data.user` is an
object; Case 2 flattened fields (`data.email && data.username`); Case 3
doubly nested (`data.data && data.data.user`, tokens from
`data.data.tokens || data.tokens`). -/
def loginExtract (d : Option LoginData) : Option ExtractResult :=
  match d with
  | none => none
  | some data =>
    match data.user with
    | some u =>
      some { user := normalizeUser u, tokens := data.tokens
             storedToken := storeIfToken data.tokens }
    | none =>
      if truthyS data.email && truthyS data.username then
        some { user := normalizeUser (toRawUser data), tokens := data.tokens
               storedToken := storeIfToken data.tokens }
      else
        match data.data with
        | some inner =>
          match inner.user with
          | some u =>
            let tokens := jsOrT inner.tokens data.tokens
            some { user := normalizeUser u, tokens := tokens
                   storedToken := storeIfToken tokens }
          | none => none
        | none => none

/-- Signup's shape dispatch: only Case 1 (`data.user`) and Case 2
(flattened fields); there is no doubly-nested case. -/
def signupExtract (data : LoginData) : Option ExtractResult :=
  match data.user with
  | some u =>
    some { user := normalizeUser u, tokens := data.tokens
           storedToken := storeIfToken data.tokens }
  | none =>
    if truthyS data.email && truthyS data.username then
      some { user := normalizeUser (toRawUser data), tokens := data.tokens
             storedToken := storeIfToken data.tokens }
    else none

/-! ## login / signup operations with reentrancy guards -/

/-- The `AuthResponse` envelope returned to callers of login/signup. -/
structure AuthResult where
  success : Bool
  user : Option CanonUser := none
  tokens : Option Tokens := none
  error : Option String := none
deriving Repr, DecidableEq

/-- One complete run of login or signup: the returned envelope, how many
network requests the operation itself issued, whether the guard flag was
set when the body began, and the guard flag's value after the call. -/
structure OpRun where
  result : AuthResult
  networkCalls : Nat
  guardSetDuring : Bool
  guardAtEnd : Bool
deriving Repr, DecidableEq

/-- `error.message` for `throw new Error(response.error || 'Login failed')`
style throws. -/
def throwMsg (e : Option String) (fallback : String) : String :=
  match jsOrS e (some fallback) with
  | some m => m
  | none => fallback

/-- `login(email, password)`: rejected immediately when the guard is
already set; otherwise sets the guard, posts the credentials (1 network
call), dispatches on the response shape, on success runs the confirmatory
`checkAuth` (1 more network call), and clears the guard in `finally` on
every path. -/
def login (guard : Bool) (resp : ApiEnvelope) : OpRun :=
  if guard then
    { result := { success := false, error := some "Login already in progress" }
      networkCalls := 0, guardSetDuring := false, guardAtEnd := guard }
  else
    if resp.success then
      match loginExtract resp.data with
      | some ex =>
        { result := { success := true, user := some ex.user, tokens := ex.tokens }
          networkCalls := 2, guardSetDuring := true, guardAtEnd := false }
      | none =>
        { result := { success := false
                      error := some "Login successful but no user data received. Check console for response structure." }
          networkCalls := 1, guardSetDuring := true, guardAtEnd := false }
    else
      { result := { success := false
                    error := some (throwMsg resp.error "Login failed") }
        networkCalls := 1, guardSetDuring := true, guardAtEnd := false }

/-- `signup(email, username, password)`: same structure as login, with the
signup shape dispatch, signup-specific messages, and the requirement that
`response.data` be present. -/
def signup (guard : Bool) (resp : ApiEnvelope) : OpRun :=
  if guard then
    { result := { success := false, error := some "Signup already in progress" }
      networkCalls := 0, guardSetDuring := false, guardAtEnd := guard }
  else
    match resp.success, resp.data with
    | true, some data =>
      (match signupExtract data with
       | some ex =>
         { result := { success := true, user := some ex.user, tokens := ex.tokens }
           networkCalls := 2, guardSetDuring := true, guardAtEnd := false }
       | none =>
         { result := { success := false
                       error := some (throwMsg data.error "Signup failed - no user data received") }
           networkCalls := 1, guardSetDuring := true, guardAtEnd := false })
    | _, _ =>
      { result := { success := false
                    error := some (throwMsg resp.error "Signup failed") }
        networkCalls := 1, guardSetDuring := true, guardAtEnd := false }

/-! ## checkAuth / logout / refreshToken (AuthContext.tsx) -/

/-- The `/api/auth/me` payload: `response.data?.user`. -/
structure MeData where
  user : Option RawUser := none
deriving Repr, DecidableEq

/-- The `/api/auth/me` envelope. -/
structure MeEnvelope where
  success : Bool
  data : Option MeData := none
  error : Option String := none
deriving Repr, DecidableEq

/-- `checkAuth()`: the user state after processing one `/api/auth/me`
outcome (`Except.error` models a thrown exception reaching the `catch`
block).  The user is stored only when `response.success === true` and
`response.data?.user` is present; every other outcome stores `null`. -/
def checkAuthOp (resp : Except Unit MeEnvelope) : Option RawUser :=
  match resp with
  | .error _ => none
  | .ok r =>
    if r.success = true then
      match r.data with
      | some d =>
        match d.user with
        | some u => some u
        | none => none
      | none => none
    else none

/-- `logout()`: the (user, token store) state after one run, given the
outcome of the best-effort `/api/auth/logout` post (`Except.error` models a
throw).  The `finally` block clears both regardless of the outcome. -/
def logout (post : Except Unit ApiEnvelope) (_user : Option RawUser)
    (store : TokenStore) : Option RawUser × TokenStore :=
  match post with
  | .ok _ => (none, setAccessToken none store)
  | .error _ => (none, setAccessToken none store)

/-- `refreshToken()`: returns `response.success || false` when the post
resolves to an envelope, leaving the user untouched; only a thrown
exception reaches the `catch` block that clears the user. -/
def refreshTokenOp (user : Option RawUser) (post : Except Unit ApiEnvelope) :
    Bool × Option RawUser :=
  match post with
  | .ok r => (r.success || false, user)
  | .error _ => (false, none)

/-- Derived state in the provider: `!isLoading && !!user`. -/
def isAuthenticated (isLoading : Bool) (user : Option RawUser) : Bool :=
  !isLoading && user.isSome

/-! ## Request dispatcher: 401 refresh-and-replay (src/lib/api/client.ts,
response interceptor) -/

/-- The outcome of sending one HTTP request: a 2xx response (handled by the
success interceptor), an HTTP error status with the body's `error` text, or
a network failure with no response. -/
inductive HttpOutcome where
  | ok (body : ApiEnvelope)
  | httpErr (status : Nat) (errorMsg : Option String)
  | netErr
deriving Repr, DecidableEq

/-- The outcome of the interceptor's refresh post: it resolved with a body
whose `success` flag is given, or it threw. -/
inductive RefreshOutcome where
  | ok (success : Bool)
  | threw
deriving Repr, DecidableEq

/-- `(error.response?.data as any)?.error || ''`. -/
def errText (m : Option String) : String :=
  match jsOrS m (some "") with
  | some s => s
  | none => ""

/-- The interceptor's "no token" test on the error text. -/
def isNoTokenError (msg : String) : Bool :=
  includesSub msg "No refresh token" ||
  includesSub msg "No token" ||
  includesSub msg "Token not found" ||
  includesSub msg "Not authenticated"

/-- The error interceptor's guard: attempt a refresh only for a 401 whose
config is not already a retry and whose error text is not a "no token"
condition (`status === 401 && !originalRequest._retry && !isNoTokenError`). -/
def interceptShouldRefresh (retry : Bool) (status : Nat) (msg : Option String) :
    Bool :=
  status == 401 && !retry && !(isNoTokenError (errText msg))

/-- The fixed environment of one dispatched request: what the original
send returns, what the refresh post returns, and what a replay of the
original request returns. -/
structure DispatchEnv where
  first : HttpOutcome
  refresh : RefreshOutcome
  replay : HttpOutcome
deriving Repr, DecidableEq

/-- The observable trace of one request through the dispatcher: whether it
finally resolved, how many refresh attempts were made, and how many times
the original request was replayed. -/
structure DispatchTrace where
  resolved : Bool
  refreshes : Nat
  replays : Nat
deriving Repr, DecidableEq

/-- One pass through `axiosInstance` for a request whose `_retry` flag is
`retry`, with `outcome` the result of this send.  A 401 passing the guard
sets `_retry`, posts a refresh and, when the refresh body reports success,
replays the original request through the same interceptor with
`_retry = true`; every other error is rejected.  The recursion is bounded:
the replay pass runs with `retry = true`, and its own replay (were the
guard ever to pass again) would use the same environment. -/
def dispatchPass (env : DispatchEnv) : Bool → HttpOutcome → DispatchTrace
  | _, .ok _ => ⟨true, 0, 0⟩
  | _, .netErr => ⟨false, 0, 0⟩
  | retry, .httpErr status msg =>
    if interceptShouldRefresh retry status msg then
      match env.refresh with
      | .ok true =>
        let inner := dispatchPass env true env.replay
        ⟨inner.resolved, inner.refreshes + 1, inner.replays + 1⟩
      | .ok false => ⟨false, 1, 0⟩
      | .threw => ⟨false, 1, 0⟩
    else ⟨false, 0, 0⟩
termination_by retry _ => if retry then 0 else 1
decreasing_by simp_all [interceptShouldRefresh]

/-- A whole request: the first send processed with `_retry` unset. -/
def runDispatch (env : DispatchEnv) : DispatchTrace :=
  dispatchPass env false env.first

/-! ## Chat-history timestamp normalization (ChatContext.tsx,
loadChatHistory) -/

/-- A message's `createdAt || timestamp` value as it may arrive: a `Date`
instance (`none` milliseconds models an invalid date whose `getTime()` is
NaN), a string, a number, or something else (missing / unrecognized type). -/
inductive TsValue where
  | date (ms : Option Int)
  | str (s : String)
  | num (n : Int)
  | missing
deriving Repr, DecidableEq

/-- The largest magnitude in milliseconds a JavaScript `Date` can represent;
`new Date(n)` beyond it is an invalid date. -/
def maxDateMs : Nat := 8640000000000000

/-- The timestamp normalization of `loadChatHistory`, parameterized by the
string parser (`new Date(string)`; `none` models an invalid date) and the
current time.  A `Date` passes through; a string is parsed; a number is
treated as Unix seconds unless it exceeds `1000000000000`, in which case it
is already milliseconds; anything else falls back to the current time, and
so does any result whose `getTime()` is NaN. -/
def loadTimestamp (parseDate : String → Option Int) (now : Int) :
    TsValue → Int
  | .date (some ms) => ms
  | .date none => now
  | .str s =>
    match parseDate s with
    | some ms => ms
    | none => now
  | .num n =>
    let ms : Int := if n > 1000000000000 then n else n * 1000
    if ms.natAbs ≤ maxDateMs then ms else now
  | .missing => now

/-! ## Sync-request validation schema (validations.ts, syncRequestSchema) -/

/-- The raw input of `syncRequestSchema` before validation. -/
structure SyncRequest where
  force : Option Bool := none
  username : Option String := none
  anilistUsername : Option String := none
  userId : Option Int := none
deriving Repr, DecidableEq

/-- The base zod object checks: `username`/`anilistUsername` are strings of
length 1..50 when present, `userId` is a positive integer when present. -/
def syncBaseValid (i : SyncRequest) : Bool :=
  (match i.username with
   | some s => 1 ≤ s.length && s.length ≤ 50
   | none => true) &&
  (match i.anilistUsername with
   | some s => 1 ≤ s.length && s.length ≤ 50
   | none => true) &&
  (match i.userId with
   | some n => 1 ≤ n
   | none => true)

/-- The `.transform` step: when `anilistUsername` is truthy and `username`
is not, copy `anilistUsername` into `username`. -/
def syncTransform (i : SyncRequest) : SyncRequest :=
  if truthyS i.anilistUsername && !truthyS i.username then
    { i with username := i.anilistUsername }
  else i

/-- `syncRequestSchema.parse`: base field checks, then the transform, then
the two refinements in order (`!username || !userId` with its message, then
`username || userId` with its message); the first failure's message is
returned. -/
def syncRequestParse (i : SyncRequest) : Except String SyncRequest :=
  if !syncBaseValid i then .error "Invalid input" else
  let d := syncTransform i
  if !(!truthyS d.username || !truthyN d.userId) then
    .error "Cannot provide both username and userId"
  else if !(truthyS d.username || truthyN d.userId) then
    .error "Either username or userId must be provided to sync a public profile"
  else .ok d

/-! ## Theorems -/

/-- C7: in every state of the provider, `isAuthenticated` is true exactly
when `isLoading` is false and a current user is present; in particular it
is false whenever `isLoading` is true. -/
theorem isAuthenticated_iff_notLoading_and_user (isLoading : Bool)
    (user : Option RawUser) :
    (isAuthenticated isLoading user = true ↔
      isLoading = false ∧ user.isSome = true) ∧
    (isLoading = true → isAuthenticated isLoading user = false) := by
  constructor
  · cases isLoading <;> cases user <;> simp [isAuthenticated]
  · intro h; subst h; simp [isAuthenticated]

/-- Witness for C7 at a concrete state: loading with a user held is not
authenticated. -/
theorem isAuthenticated_iff_notLoading_and_user_witness :
    isAuthenticated true (some ({} : RawUser)) = false :=
  (isAuthenticated_iff_notLoading_and_user true (some ({} : RawUser))).2 rfl

/-- C5: every run of `logout()`, whether the server notification resolves
or throws, ends with the current user `null` and the token store cleared
(memory slot `null`, sessionStorage item removed). -/
theorem logout_always_clears (post : Except Unit ApiEnvelope)
    (user : Option RawUser) (store : TokenStore) :
    logout post user store = (none, { memory := none, session := none }) := by
  cases post <;> simp [logout, setAccessToken, truthyS]

/-- C10 counterexample: the claim quantifies over every string token, but
for the empty string `setAccessToken("")` stores a falsy value (and removes
the sessionStorage mirror), so `getAccessToken()` returns `null`, not `""`. -/
theorem tokenStore_roundtrip_cex :
    (getAccessToken
      (setAccessToken (some "") { memory := none, session := none })).1
      ≠ some "" := by
  decide

/-- C10 (amended to non-empty tokens): for every non-empty token `t`,
`getAccessToken` returns `t` right after `setAccessToken(t)`; and after
`setAccessToken(null)` both the memory slot and the sessionStorage mirror
are cleared, so `getAccessToken` returns `null` — a cleared token cannot be
resurrected from the sessionStorage fallback. -/
theorem tokenStore_roundtrip (t : String) (s : TokenStore) (h : t ≠ "") :
    (getAccessToken (setAccessToken (some t) s)).1 = some t ∧
    (setAccessToken none s).memory = none ∧
    (setAccessToken none s).session = none ∧
    (getAccessToken (setAccessToken none s)).1 = none := by
  refine ⟨?_, rfl, by simp [setAccessToken, truthyS], ?_⟩
  · simp [getAccessToken, setAccessToken, truthyS, h]
  · simp [getAccessToken, setAccessToken, truthyS]

/-- Witness for C10 at a concrete token and store. -/
theorem tokenStore_roundtrip_witness :
    (getAccessToken
      (setAccessToken (some "tok") { memory := none, session := none })).1
      = some "tok" :=
  (tokenStore_roundtrip "tok" { memory := none, session := none }
    (by decide)).1

/-- C4 counterexample: a refresh that resolves to a failure envelope
(`success: false`) makes `refreshToken()` return `false` while leaving the
current user in place — the user is not cleared on this failed refresh. -/
theorem refreshToken_failure_keeps_user_cex :
    (refreshTokenOp (some ({} : RawUser)) (.ok { success := false })).1
      = false ∧
    (refreshTokenOp (some ({} : RawUser)) (.ok { success := false })).2
      ≠ none := by
  decide

/-- C4 (amended): `refreshToken()` returns the envelope's success flag when
the post resolves (leaving the current user unchanged, even on a failure
envelope), and clears the current user only when the post throws, in which
case it returns `false`. -/
theorem refreshToken_boolean_outcome (user : Option RawUser)
    (post : Except Unit ApiEnvelope) :
    (∀ r : ApiEnvelope, post = .ok r →
      refreshTokenOp user post = (r.success, user)) ∧
    (∀ e : Unit, post = .error e →
      refreshTokenOp user post = (false, none)) := by
  constructor <;> intro x h <;> subst h <;> simp [refreshTokenOp]

/-- Witness for C4 at a concrete failure envelope and thrown error. -/
theorem refreshToken_boolean_outcome_witness :
    refreshTokenOp (some ({} : RawUser)) (.ok { success := false })
      = (false, some ({} : RawUser)) ∧
    refreshTokenOp (some ({} : RawUser)) (.error ())
      = (false, none) :=
  ⟨(refreshToken_boolean_outcome (some ({} : RawUser))
      (.ok { success := false })).1 { success := false } rfl,
   (refreshToken_boolean_outcome (some ({} : RawUser))
      (.error ())).2 () rfl⟩

/-- C6: `checkAuth` stores a user exactly when the response resolved with
`success === true` and a user object under `data`; a thrown error, a
`success: false` envelope (with or without an error message), and a success
envelope without a user all store `null`. -/
theorem checkAuth_sets_user_only_on_success (r : MeEnvelope) (u : RawUser) :
    (∀ e : Unit, checkAuthOp (.error e) = none) ∧
    (r.success = false → checkAuthOp (.ok r) = none) ∧
    (checkAuthOp (.ok r) = some u ↔
      r.success = true ∧ r.data.bind MeData.user = some u) := by
  refine ⟨fun _ => rfl, ?_, ?_⟩
  · intro h; simp [checkAuthOp, h]
  · rcases r with ⟨s, d, e⟩
    cases s <;> [simp [checkAuthOp]; skip]
    cases d with
    | none => simp [checkAuthOp]
    | some md =>
      cases md.user <;> simp [checkAuthOp, Option.bind] <;> aesop

/-- Witness for C6: a thrown check and a `success: false` envelope with an
error message both leave the user `null`. -/
theorem checkAuth_sets_user_only_on_success_witness :
    checkAuthOp (.error ()) = none ∧
    checkAuthOp (.ok { success := false, error := some "Not authenticated" })
      = none :=
  ⟨(checkAuth_sets_user_only_on_success
      { success := false, error := some "Not authenticated" } {}).1 (),
   (checkAuth_sets_user_only_on_success
      { success := false, error := some "Not authenticated" } {}).2.1 rfl⟩

/-- C8: the seconds-scale value 1700000000 and the millisecond-scale value
1700000000000 normalize to the same instant, and every value that fails to
parse to a valid instant (missing/unrecognized type, an invalid `Date`, or
a string the date parser rejects) is replaced by the current time. -/
theorem loadTimestamp_normalizes (parseDate : String → Option Int)
    (now : Int) (s : String) :
    loadTimestamp parseDate now (.num 1700000000)
      = loadTimestamp parseDate now (.num 1700000000000) ∧
    loadTimestamp parseDate now .missing = now ∧
    loadTimestamp parseDate now (.date none) = now ∧
    (parseDate s = none → loadTimestamp parseDate now (.str s) = now) := by
  refine ⟨?_, rfl, rfl, ?_⟩
  · simp [loadTimestamp, maxDateMs]
  · intro h; simp [loadTimestamp, h]

/-- Witness for C8: with a parser that rejects everything, an unparsable
string maps to the current time, and the two scales agree. -/
theorem loadTimestamp_normalizes_witness :
    loadTimestamp (fun _ => none) 42 (.num 1700000000)
      = loadTimestamp (fun _ => none) 42 (.num 1700000000000) ∧
    loadTimestamp (fun _ => none) 42 (.str "garbage") = 42 :=
  ⟨(loadTimestamp_normalizes (fun _ => none) 42 "garbage").1,
   (loadTimestamp_normalizes (fun _ => none) 42 "garbage").2.2.2 rfl⟩

/-- C9 counterexample: with neither field set the schema rejects, but its
message is the longer "... to sync a public profile" text, not the exact
message the claim states. -/
theorem syncRequest_neither_message_cex :
    syncRequestParse {} =
      .error "Either username or userId must be provided to sync a public profile" ∧
    "Either username or userId must be provided to sync a public profile" ≠
      "Either username or userId must be provided." := by
  exact ⟨rfl, by decide⟩

/-- C9 (amended to the code's exact neither-case message): validation
succeeds only when exactly one of `username` (after normalizing
`anilistUsername`) and `userId` is set; a base-valid input with both set is
rejected with "Cannot provide both username and userId", and one with
neither set is rejected with "Either username or userId must be provided to
sync a public profile" — all before any network call, since the schema is a
pure function of the input. -/
theorem syncRequest_exactly_one (i o : SyncRequest) :
    (syncBaseValid i = true → truthyS (syncTransform i).username = true →
      truthyN (syncTransform i).userId = true →
      syncRequestParse i = .error "Cannot provide both username and userId") ∧
    (syncBaseValid i = true → truthyS (syncTransform i).username = false →
      truthyN (syncTransform i).userId = false →
      syncRequestParse i =
        .error "Either username or userId must be provided to sync a public profile") ∧
    (syncRequestParse i = .ok o →
      (truthyS o.username = true ∧ truthyN o.userId = false) ∨
      (truthyS o.username = false ∧ truthyN o.userId = true)) := by
  refine ⟨?_, ?_, ?_⟩
  · intro hb hu hn
    simp [syncRequestParse, hb, hu, hn]
  · intro hb hu hn
    simp [syncRequestParse, hb, hu, hn]
  · intro h
    by_cases hb : syncBaseValid i = true
    · cases hu : truthyS (syncTransform i).username <;>
        cases hn : truthyN (syncTransform i).userId <;>
        simp [syncRequestParse, hb, hu, hn] at h
      · subst h; exact Or.inr ⟨hu, hn⟩
      · subst h; exact Or.inl ⟨hu, hn⟩
    · simp [syncRequestParse, hb] at h

/-- Witness for C9: both set rejects with the both-message; neither set
rejects with the neither-message; a single username is accepted. -/
theorem syncRequest_exactly_one_witness :
    syncRequestParse { username := some "ann", userId := some 7 } =
      .error "Cannot provide both username and userId" ∧
    syncRequestParse {} =
      .error "Either username or userId must be provided to sync a public profile" := by
  refine ⟨?_, ?_⟩
  · exact (syncRequest_exactly_one
      { username := some "ann", userId := some 7 } {}).1 (by decide) (by decide)
      (by decide)
  · exact (syncRequest_exactly_one {} {}).2.1 (by decide) (by decide) (by decide)

/-- C3: a second login (resp. signup) while one is in flight returns the
"already in progress" error envelope with zero network requests and leaves
the guard alone; when the guard is free, the body sets the guard before it
begins and the `finally` step clears it on every exit path. -/
theorem login_signup_guards (resp : ApiEnvelope) :
    login true resp =
      { result := { success := false
                    error := some "Login already in progress" }
        networkCalls := 0, guardSetDuring := false, guardAtEnd := true } ∧
    signup true resp =
      { result := { success := false
                    error := some "Signup already in progress" }
        networkCalls := 0, guardSetDuring := false, guardAtEnd := true } ∧
    (login false resp).guardSetDuring = true ∧
    (login false resp).guardAtEnd = false ∧
    (signup false resp).guardSetDuring = true ∧
    (signup false resp).guardAtEnd = false := by
  refine ⟨rfl, rfl, ?_, ?_, ?_, ?_⟩
  all_goals
    simp only [login, signup, Bool.false_eq_true, if_false]
    repeat' split
    all_goals rfl

/-! ## The three success-response layouts for C1 -/

/-- Layout 1: top-level `user`/`tokens` on the payload. -/
def layoutTop (u : RawUser) (tk : Tokens) : LoginData :=
  { user := some u, tokens := some tk }

/-- Layout 2: user fields flattened directly on the payload. -/
def layoutFlat (u : RawUser) (tk : Tokens) : LoginData :=
  { _id := u._id, id := u.id, email := u.email, username := u.username
    oauthProviders := u.oauthProviders, createdAt := u.createdAt
    updatedAt := u.updatedAt, tokens := some tk }

/-- Layout 3: user and tokens nested one level under `data`. -/
def layoutNested (u : RawUser) (tk : Tokens) : LoginData :=
  { data := some { user := some u, tokens := some tk } }

/-- A concrete backend user whose identifier arrives under `id`. -/
def cexUser : RawUser :=
  { id := some "u1", email := some "ann@example.com", username := some "ann" }

/-- C1 counterexample: signup does not recognize the doubly-nested layout —
its extraction finds no user there, so the operation returns a failure
envelope instead of the canonical user, while login on the very same
payload succeeds. -/
theorem login_signup_shapes_cex :
    signupExtract (layoutNested cexUser { accessToken := some "tok0" })
      = none ∧
    (signup false
      { success := true
        data := some (layoutNested cexUser { accessToken := some "tok0" }) }).result
      = { success := false
          error := some "Signup failed - no user data received" } ∧
    loginExtract (some (layoutNested cexUser { accessToken := some "tok0" }))
      = some { user := normalizeUser cexUser
               tokens := some { accessToken := some "tok0" }
               storedToken := some "tok0" } := by
  refine ⟨rfl, rfl, rfl⟩

/-- C1 (amended): for any user payload with truthy email/username and any
non-empty access token, login extracts the same canonical user (identifier
normalized from `_id` or `id`) and stores the same token under all three
layouts, and signup does so under the top-level and flattened layouts; the
doubly-nested layout is recognized by login only, signup failing on it. -/
theorem login_signup_shapes (u : RawUser) (t : String) (ht : t ≠ "")
    (he : truthyS u.email = true) (hn : truthyS u.username = true) :
    loginExtract (some (layoutTop u { accessToken := some t }))
      = some { user := normalizeUser u
               tokens := some { accessToken := some t }
               storedToken := some t } ∧
    loginExtract (some (layoutFlat u { accessToken := some t }))
      = some { user := normalizeUser u
               tokens := some { accessToken := some t }
               storedToken := some t } ∧
    loginExtract (some (layoutNested u { accessToken := some t }))
      = some { user := normalizeUser u
               tokens := some { accessToken := some t }
               storedToken := some t } ∧
    signupExtract (layoutTop u { accessToken := some t })
      = some { user := normalizeUser u
               tokens := some { accessToken := some t }
               storedToken := some t } ∧
    signupExtract (layoutFlat u { accessToken := some t })
      = some { user := normalizeUser u
               tokens := some { accessToken := some t }
               storedToken := some t } ∧
    signupExtract (layoutNested u { accessToken := some t }) = none := by
  have hst : storeIfToken (some { accessToken := some t }) = some t := by
    simp [storeIfToken, truthyS, ht]
  have hraw : toRawUser (layoutFlat u { accessToken := some t }) = u := rfl
  refine ⟨?_, ?_, ?_, ?_, ?_, rfl⟩
  · simp [loginExtract, layoutTop, hst]
  · rw [show loginExtract (some (layoutFlat u { accessToken := some t }))
        = some { user := normalizeUser (toRawUser (layoutFlat u { accessToken := some t }))
                 tokens := some { accessToken := some t }
                 storedToken := storeIfToken (some { accessToken := some t }) } by
      simp [loginExtract, layoutFlat, he, hn]]
    rw [hraw, hst]
  · simp [loginExtract, layoutNested, jsOrT, hst, truthyS]
  · simp [signupExtract, layoutTop, hst]
  · rw [show signupExtract (layoutFlat u { accessToken := some t })
        = some { user := normalizeUser (toRawUser (layoutFlat u { accessToken := some t }))
                 tokens := some { accessToken := some t }
                 storedToken := storeIfToken (some { accessToken := some t }) } by
      simp [signupExtract, layoutFlat, he, hn]]
    rw [hraw, hst]

/-- Witness for C1 at a concrete user and token under the top-level
layout. -/
theorem login_signup_shapes_witness :
    loginExtract (some (layoutTop cexUser { accessToken := some "tok0" }))
      = some { user := normalizeUser cexUser
               tokens := some { accessToken := some "tok0" }
               storedToken := some "tok0" } :=
  (login_signup_shapes cexUser "tok0" (by decide) (by decide) (by decide)).1

/-- Replay passes (`_retry` already set) never refresh and never replay
again: the interceptor's guard is false once `_retry` is set. -/
theorem dispatchPass_retry_inert (env : DispatchEnv) (o : HttpOutcome) :
    (dispatchPass env true o).refreshes = 0 ∧
    (dispatchPass env true o).replays = 0 ∧
    ((dispatchPass env true o).resolved = true ↔ ∃ b, o = .ok b) := by
  cases o <;> simp [dispatchPass, interceptShouldRefresh]

/-- C2: every execution of the dispatcher makes at most one refresh attempt
and at most one replay; a first-send 401 that is not a "no token" condition
triggers exactly one refresh, a successful refresh triggers exactly one
replay, and the final envelope succeeds exactly when the replay's outcome
is a 2xx response — a 401 on the replay is rejected without a second
refresh. -/
theorem dispatch_single_refresh (env : DispatchEnv) (msg : Option String) :
    (runDispatch env).refreshes ≤ 1 ∧
    (runDispatch env).replays ≤ 1 ∧
    (env.first = .httpErr 401 msg → isNoTokenError (errText msg) = false →
      (runDispatch env).refreshes = 1 ∧
      (env.refresh = RefreshOutcome.ok true →
        (runDispatch env).replays = 1 ∧
        ((runDispatch env).resolved = true ↔ ∃ b, env.replay = .ok b))) := by
  rcases env with ⟨first, refresh, replay⟩
  have hre := dispatchPass_retry_inert ⟨first, refresh, replay⟩ replay
  refine ⟨?_, ?_, ?_⟩
  · cases first with
    | ok b => simp [runDispatch, dispatchPass]
    | netErr => simp [runDispatch, dispatchPass]
    | httpErr st m =>
      by_cases hg : interceptShouldRefresh false st m = true
      · cases refresh with
        | ok b =>
          cases b <;>
            simp [runDispatch, dispatchPass, hg, hre.1]
        | threw => simp [runDispatch, dispatchPass, hg]
      · simp [runDispatch, dispatchPass, hg]
  · cases first with
    | ok b => simp [runDispatch, dispatchPass]
    | netErr => simp [runDispatch, dispatchPass]
    | httpErr st m =>
      by_cases hg : interceptShouldRefresh false st m = true
      · cases refresh with
        | ok b =>
          cases b <;>
            simp [runDispatch, dispatchPass, hg, hre.2.1]
        | threw => simp [runDispatch, dispatchPass, hg]
      · simp [runDispatch, dispatchPass, hg]
  · intro hf hmsg
    subst hf
    have hg : interceptShouldRefresh false 401 msg = true := by
      simp [interceptShouldRefresh, hmsg]
    refine ⟨?_, ?_⟩
    · cases refresh with
      | ok b =>
        cases b <;> simp [runDispatch, dispatchPass, hg, hre.1]
      | threw => simp [runDispatch, dispatchPass, hg]
    · intro hr
      subst hr
      constructor
      · simp [runDispatch, dispatchPass, hg, hre.2.1]
      · simpa [runDispatch, dispatchPass, hg] using hre.2.2

/-- Witness for C2: a recoverable 401 ("Session expired"), a successful
refresh, and a 2xx replay yield exactly one refresh, exactly one replay,
and a resolved request. -/
theorem dispatch_single_refresh_witness :
    (runDispatch
      { first := .httpErr 401 (some "Session expired")
        refresh := .ok true
        replay := .ok { success := true } }).refreshes = 1 ∧
    (runDispatch
      { first := .httpErr 401 (some "Session expired")
        refresh := .ok true
        replay := .ok { success := true } }).replays = 1 := by
  have h := dispatch_single_refresh
    { first := .httpErr 401 (some "Session expired")
      refresh := .ok true
      replay := .ok { success := true } } (some "Session expired")
  exact ⟨(h.2.2 rfl (by decide)).1, ((h.2.2 rfl (by decide)).2 rfl).1⟩
